import Mathlib

/-!
Verification of the FarmTech irrigation controller (Fase 4, main.cpp).

The decision core is the function analisarDadosEControlarBomba, which maps
the per-cycle sensor values (nutrient flags, pH, soil moisture) to a pump
on/off decision plus a reason, by sequential reassignment of a local
deve_ativar_bomba flag and a motivo string.  Sensor floats are embedded as
rationals (the program only compares them against the fixed thresholds, so
the ordered-field structure is all that matters); the closed set of reason
strings is embedded as the enumeration Motivo.
-/

/-- The per-cycle sensor reading: the four global sensor variables of the
program (fosforo_presente, potassio_presente, valor_ph, umidade_solo). -/
structure Reading where
  fosforo_presente : Bool
  potassio_presente : Bool
  valor_ph : ℚ
  umidade_solo : ℚ
deriving DecidableEq, Repr

/-- The closed set of decision reasons, one per motivo_decisao string
assigned in analisarDadosEControlarBomba. -/
inductive Motivo where
  | umidadeBaixa
  | umidadeAlta
  | umidadeNormal
  | phMuitoAcido
  | phMuitoAlcalino
  | semNutrientes
  | nutrienteParcial
deriving DecidableEq, Repr

/-- The per-cycle decision: the final value of deve_ativar_bomba (copied
into the global bomba_ativa) together with the final motivo_decisao. -/
structure Decision where
  bomba_ativa : Bool
  motivo : Motivo
deriving DecidableEq, Repr

def LIMITE_UMIDADE_BAIXA : ℚ := 30
def LIMITE_UMIDADE_ALTA : ℚ := 70
def LIMITE_PH_BAIXO : ℚ := 6
def LIMITE_PH_ALTO : ℚ := 8

/-- analisarDadosEControlarBomba from main.cpp, as a pure function of the
sensor reading.  Each passoN is the value of the pair
(deve_ativar_bomba, motivo_decisao) after the N-th if/else block; the flag
starts false, and the final else of the moisture block leaves it unchanged
(hence false) while setting motivo to umidadeNormal. -/
def analisarDadosEControlarBomba (r : Reading) : Decision :=
  let passo1 : Bool × Motivo :=
    if r.umidade_solo < LIMITE_UMIDADE_BAIXA then
      (true, Motivo.umidadeBaixa)
    else if r.umidade_solo > LIMITE_UMIDADE_ALTA then
      (false, Motivo.umidadeAlta)
    else
      (false, Motivo.umidadeNormal)
  let passo2 : Bool × Motivo :=
    if r.valor_ph < LIMITE_PH_BAIXO then
      (false, Motivo.phMuitoAcido)
    else if r.valor_ph > LIMITE_PH_ALTO then
      (false, Motivo.phMuitoAlcalino)
    else
      passo1
  let passo3 : Bool × Motivo :=
    if !r.fosforo_presente && !r.potassio_presente then
      (true, Motivo.semNutrientes)
    else
      passo2
  let passo4 : Bool × Motivo :=
    if (r.fosforo_presente && !r.potassio_presente) ||
        (!r.fosforo_presente && r.potassio_presente) then
      (true, Motivo.nutrienteParcial)
    else
      passo3
  { bomba_ativa := passo4.1, motivo := passo4.2 }

/-- The irrigation-relevant global mutable state of the program: the four
sensor variables plus bomba_ativa, the only decision-related variable that
survives from one cycle to the next. -/
structure GlobalState where
  fosforo_presente : Bool
  potassio_presente : Bool
  valor_ph : ℚ
  umidade_solo : ℚ
  bomba_ativa : Bool
deriving DecidableEq, Repr

/-- The reading part of the global state. -/
def readingOf (s : GlobalState) : Reading :=
  { fosforo_presente := s.fosforo_presente
  , potassio_presente := s.potassio_presente
  , valor_ph := s.valor_ph
  , umidade_solo := s.umidade_solo }

/-- The call analisarDadosEControlarBomba() as a state transformer: the
locals deve_ativar_bomba and motivo_decisao are computed from the sensor
globals only, and the single global write is
bomba_ativa = deve_ativar_bomba; the sensor globals are untouched. -/
def analisarState (s : GlobalState) : GlobalState :=
  { s with bomba_ativa := (analisarDadosEControlarBomba (readingOf s)).bomba_ativa }

/-- Left-pad a digit string with zeros to the requested width, as the
fractional part of Serial.print(float, digits) is. -/
def zeroPad (s : String) (n : Nat) : String :=
  String.mk (List.replicate (n - s.length) '0') ++ s

/-- Serial.print(float, casas): round half-up at the last kept digit, then
print the integer part, a dot, and exactly casas fractional digits. -/
def formatFixed (q : ℚ) (casas : Nat) : String :=
  let sinal := if q < 0 then "-" else ""
  let arredondado : Nat := (⌊|q| * (10 : ℚ) ^ casas + 1 / 2⌋).toNat
  let parteInteira := arredondado / 10 ^ casas
  let parteFrac := arredondado % 10 ^ casas
  if casas = 0 then
    sinal ++ Nat.repr parteInteira
  else
    sinal ++ Nat.repr parteInteira ++ "." ++ zeroPad (Nat.repr parteFrac) casas

/-- exibirDadosCSV from main.cpp: the six Serial.print fields separated by
commas, in source order (contador_medicoes, fosforo 0|1, potassio 0|1,
pH with 2 decimals, umidade with 1 decimal, bomba 0|1). -/
def exibirDadosCSV (contador : Nat) (r : Reading) (bomba : Bool) : String :=
  Nat.repr contador ++ "," ++
  (if r.fosforo_presente then "1" else "0") ++ "," ++
  (if r.potassio_presente then "1" else "0") ++ "," ++
  formatFixed r.valor_ph 2 ++ "," ++
  formatFixed r.umidade_solo 1 ++ "," ++
  (if bomba then "1" else "0")

/-- One loop() cycle after the reading is fixed: analyse the data, then emit
the CSV record built from the same cycle's reading and the decision just
made (loop calls analisarDadosEControlarBomba before exibirDadosCSV, so the
printed bomba_ativa is this cycle's decision). -/
def executarCiclo (contador : Nat) (r : Reading) : Decision × String :=
  let d := analisarDadosEControlarBomba r
  (d, exibirDadosCSV contador r d.bomba_ativa)

/-- The complete list of reason codes. -/
def todosMotivos : List Motivo :=
  [Motivo.umidadeBaixa, Motivo.umidadeAlta, Motivo.umidadeNormal,
   Motivo.phMuitoAcido, Motivo.phMuitoAlcalino,
   Motivo.semNutrientes, Motivo.nutrienteParcial]

/-! The six demonstration scenarios of simularCenario, checked against the
decisions the serial log reports for them. -/

example : analisarDadosEControlarBomba ⟨false, false, 72/10, 45⟩ =
    ⟨true, Motivo.semNutrientes⟩ := by
  norm_num [analisarDadosEControlarBomba, LIMITE_UMIDADE_BAIXA, LIMITE_UMIDADE_ALTA,
    LIMITE_PH_BAIXO, LIMITE_PH_ALTO]

example : analisarDadosEControlarBomba ⟨true, false, 7, 25⟩ =
    ⟨true, Motivo.nutrienteParcial⟩ := by decide

example : analisarDadosEControlarBomba ⟨false, true, 68/10, 75⟩ =
    ⟨true, Motivo.nutrienteParcial⟩ := by
  norm_num [analisarDadosEControlarBomba, LIMITE_UMIDADE_BAIXA, LIMITE_UMIDADE_ALTA,
    LIMITE_PH_BAIXO, LIMITE_PH_ALTO]

example : analisarDadosEControlarBomba ⟨true, true, 55/10, 40⟩ =
    ⟨false, Motivo.phMuitoAcido⟩ := by
  norm_num [analisarDadosEControlarBomba, LIMITE_UMIDADE_BAIXA, LIMITE_UMIDADE_ALTA,
    LIMITE_PH_BAIXO, LIMITE_PH_ALTO]

example : analisarDadosEControlarBomba ⟨true, true, 85/10, 50⟩ =
    ⟨false, Motivo.phMuitoAlcalino⟩ := by
  norm_num [analisarDadosEControlarBomba, LIMITE_UMIDADE_BAIXA, LIMITE_UMIDADE_ALTA,
    LIMITE_PH_BAIXO, LIMITE_PH_ALTO]

example : analisarDadosEControlarBomba ⟨true, true, 7, 55⟩ =
    ⟨false, Motivo.umidadeNormal⟩ := by decide

/-- C1: with both nutrients present, moisture below 30 and pH below 6, the
pH override (block 2) beats the moisture-low rule (block 1), and neither
nutrient block fires, so the pump stays off with reason phMuitoAcido. -/
theorem ph_acido_vence_umidade_baixa (r : Reading)
    (hf : r.fosforo_presente = true) (hk : r.potassio_presente = true)
    (hum : r.umidade_solo < 30) (hph : r.valor_ph < 6) :
    analisarDadosEControlarBomba r = ⟨false, Motivo.phMuitoAcido⟩ := by
  rcases r with ⟨f, k, ph, um⟩
  simp only at hf hk
  subst hf
  subst hk
  simp only [analisarDadosEControlarBomba]
  norm_num [LIMITE_UMIDADE_BAIXA, LIMITE_UMIDADE_ALTA, LIMITE_PH_BAIXO, LIMITE_PH_ALTO,
    hum, hph]

theorem ph_acido_vence_umidade_baixa_witness :
    (20 : ℚ) < 30 ∧ (5 : ℚ) < 6 ∧
    analisarDadosEControlarBomba ⟨true, true, 5, 20⟩ = ⟨false, Motivo.phMuitoAcido⟩ :=
  ⟨by decide, by decide,
   ph_acido_vence_umidade_baixa ⟨true, true, 5, 20⟩ rfl rfl (by decide) (by decide)⟩

/-- C2: with both nutrients absent, block 3 forces the pump on with reason
semNutrientes, and block 4 does not fire, for every moisture and pH. -/
theorem sem_nutrientes_forca_irrigacao (r : Reading)
    (hf : r.fosforo_presente = false) (hk : r.potassio_presente = false) :
    analisarDadosEControlarBomba r = ⟨true, Motivo.semNutrientes⟩ := by
  rcases r with ⟨f, k, ph, um⟩
  simp only at hf hk
  subst hf
  subst hk
  simp [analisarDadosEControlarBomba]

theorem sem_nutrientes_forca_irrigacao_witness :
    analisarDadosEControlarBomba ⟨false, false, 20, 100⟩ = ⟨true, Motivo.semNutrientes⟩ :=
  sem_nutrientes_forca_irrigacao ⟨false, false, 20, 100⟩ rfl rfl

/-- C3: with exactly one nutrient present, block 4 fires last and forces the
pump on with reason nutrienteParcial, for every moisture and pH, superseding
in particular the pH block. -/
theorem nutriente_parcial_forca_irrigacao (r : Reading)
    (h : r.fosforo_presente ≠ r.potassio_presente) :
    analisarDadosEControlarBomba r = ⟨true, Motivo.nutrienteParcial⟩ := by
  rcases r with ⟨f, k, ph, um⟩
  simp only at h
  cases f <;> cases k <;> simp_all [analisarDadosEControlarBomba]

theorem nutriente_parcial_forca_irrigacao_witness :
    (true ≠ false) ∧
    analisarDadosEControlarBomba ⟨true, false, 3, 90⟩ = ⟨true, Motivo.nutrienteParcial⟩ :=
  ⟨by decide, nutriente_parcial_forca_irrigacao ⟨true, false, 3, 90⟩ (by decide)⟩

/-- C4: with both nutrients present, moisture strictly below 30 and pH inside
[6, 8], block 1 turns the pump on with reason umidadeBaixa and no later block
changes that. -/
theorem umidade_baixa_liga_bomba (r : Reading)
    (hf : r.fosforo_presente = true) (hk : r.potassio_presente = true)
    (hum : r.umidade_solo < 30)
    (hph1 : 6 ≤ r.valor_ph) (hph2 : r.valor_ph ≤ 8) :
    analisarDadosEControlarBomba r = ⟨true, Motivo.umidadeBaixa⟩ := by
  rcases r with ⟨f, k, ph, um⟩
  simp only at hf hk
  subst hf
  subst hk
  simp only [analisarDadosEControlarBomba]
  norm_num [LIMITE_UMIDADE_BAIXA, LIMITE_UMIDADE_ALTA, LIMITE_PH_BAIXO, LIMITE_PH_ALTO,
    hum, not_lt.mpr hph1, not_lt.mpr hph2]

theorem umidade_baixa_liga_bomba_witness :
    (25 : ℚ) < 30 ∧ (6 : ℚ) ≤ 7 ∧ (7 : ℚ) ≤ 8 ∧
    analisarDadosEControlarBomba ⟨true, true, 7, 25⟩ = ⟨true, Motivo.umidadeBaixa⟩ :=
  ⟨by decide, by decide, by decide,
   umidade_baixa_liga_bomba ⟨true, true, 7, 25⟩ rfl rfl (by decide) (by decide) (by decide)⟩

/-- C5: with both nutrients present, moisture inside the normal band
[30, 70] and pH inside [6, 8], no block ever sets the flag, so the pump is
off with reason umidadeNormal. -/
theorem umidade_normal_desliga_bomba (r : Reading)
    (hf : r.fosforo_presente = true) (hk : r.potassio_presente = true)
    (hum1 : 30 ≤ r.umidade_solo) (hum2 : r.umidade_solo ≤ 70)
    (hph1 : 6 ≤ r.valor_ph) (hph2 : r.valor_ph ≤ 8) :
    analisarDadosEControlarBomba r = ⟨false, Motivo.umidadeNormal⟩ := by
  rcases r with ⟨f, k, ph, um⟩
  simp only at hf hk
  subst hf
  subst hk
  simp only [analisarDadosEControlarBomba]
  norm_num [LIMITE_UMIDADE_BAIXA, LIMITE_UMIDADE_ALTA, LIMITE_PH_BAIXO, LIMITE_PH_ALTO,
    not_lt.mpr hum1, not_lt.mpr hum2, not_lt.mpr hph1, not_lt.mpr hph2]

theorem umidade_normal_desliga_bomba_witness :
    (30 : ℚ) ≤ 55 ∧ (55 : ℚ) ≤ 70 ∧ (6 : ℚ) ≤ 7 ∧ (7 : ℚ) ≤ 8 ∧
    analisarDadosEControlarBomba ⟨true, true, 7, 55⟩ = ⟨false, Motivo.umidadeNormal⟩ :=
  ⟨by decide, by decide, by decide, by decide,
   umidade_normal_desliga_bomba ⟨true, true, 7, 55⟩ rfl rfl
     (by decide) (by decide) (by decide) (by decide)⟩

/-- C6: the decision is a pure, deterministic function of the reading: the
analysis step on two global states with the same sensor reading yields the
same pump state, it never changes the sensor part of the state, and
repeating it on an unchanged reading is idempotent. -/
theorem decisao_pura_e_deterministica (s₁ s₂ : GlobalState)
    (h : readingOf s₁ = readingOf s₂) :
    (analisarState s₁).bomba_ativa = (analisarState s₂).bomba_ativa ∧
    readingOf (analisarState s₁) = readingOf s₁ ∧
    analisarState (analisarState s₁) = analisarState s₁ := by
  refine ⟨?_, rfl, rfl⟩
  show (analisarDadosEControlarBomba (readingOf s₁)).bomba_ativa =
    (analisarDadosEControlarBomba (readingOf s₂)).bomba_ativa
  rw [h]

theorem decisao_pura_e_deterministica_witness :
    readingOf ⟨true, true, 7, 55, true⟩ = readingOf ⟨true, true, 7, 55, false⟩ ∧
    ((analisarState ⟨true, true, 7, 55, true⟩).bomba_ativa =
        (analisarState ⟨true, true, 7, 55, false⟩).bomba_ativa ∧
      readingOf (analisarState ⟨true, true, 7, 55, true⟩) =
        readingOf ⟨true, true, 7, 55, true⟩ ∧
      analisarState (analisarState ⟨true, true, 7, 55, true⟩) =
        analisarState ⟨true, true, 7, 55, true⟩) :=
  ⟨rfl, decisao_pura_e_deterministica ⟨true, true, 7, 55, true⟩ ⟨true, true, 7, 55, false⟩ rfl⟩

/-- C7: the evaluator is total on every reading: its reason always lies in
the closed enumeration todosMotivos, and out-of-range pH and moisture
values (negative, above 100) still produce a decision through the same
threshold comparisons. -/
theorem avaliador_total :
    (∀ r : Reading, (analisarDadosEControlarBomba r).motivo ∈ todosMotivos) ∧
    analisarDadosEControlarBomba ⟨true, true, -3, 250⟩ = ⟨false, Motivo.phMuitoAcido⟩ ∧
    analisarDadosEControlarBomba ⟨true, true, 20, -5⟩ = ⟨false, Motivo.phMuitoAlcalino⟩ ∧
    analisarDadosEControlarBomba ⟨false, false, -1, 150⟩ = ⟨true, Motivo.semNutrientes⟩ := by
  refine ⟨?_, by decide, by decide, by decide⟩
  intro r
  cases h : (analisarDadosEControlarBomba r).motivo <;> simp [todosMotivos]

/-- C9: every threshold comparison is strict: moisture exactly 30 or 70
falls in the moisture-normal branch, pH exactly 6 or 8 does not trigger the
pH block, and with both nutrients present, moisture 30 and pH 6 the pump is
off with reason umidadeNormal. -/
theorem comparacoes_estritas (ph um : ℚ) :
    ((um = 30 ∨ um = 70) → 6 ≤ ph → ph ≤ 8 →
      analisarDadosEControlarBomba ⟨true, true, ph, um⟩ = ⟨false, Motivo.umidadeNormal⟩) ∧
    ((ph = 6 ∨ ph = 8) →
      (analisarDadosEControlarBomba ⟨true, true, ph, um⟩).motivo ≠ Motivo.phMuitoAcido ∧
      (analisarDadosEControlarBomba ⟨true, true, ph, um⟩).motivo ≠ Motivo.phMuitoAlcalino) := by
  constructor
  · rintro (rfl | rfl) hph1 hph2 <;>
      · simp only [analisarDadosEControlarBomba]
        norm_num [LIMITE_UMIDADE_BAIXA, LIMITE_UMIDADE_ALTA, LIMITE_PH_BAIXO, LIMITE_PH_ALTO,
          not_lt.mpr hph1, not_lt.mpr hph2]
  · rintro (rfl | rfl) <;>
      · simp only [analisarDadosEControlarBomba]
        norm_num [LIMITE_UMIDADE_BAIXA, LIMITE_UMIDADE_ALTA, LIMITE_PH_BAIXO, LIMITE_PH_ALTO]
        split_ifs <;> simp

theorem comparacoes_estritas_witness :
    ((30 : ℚ) = 30 ∨ (30 : ℚ) = 70) ∧ (6 : ℚ) ≤ 6 ∧ (6 : ℚ) ≤ 8 ∧
    analisarDadosEControlarBomba ⟨true, true, 6, 30⟩ = ⟨false, Motivo.umidadeNormal⟩ :=
  ⟨Or.inl rfl, by decide, by decide,
   (comparacoes_estritas 6 30).1 (Or.inl rfl) (by decide) (by decide)⟩

/-- C10: exact characterization of the pump decision: the pump is on iff
not both nutrients are present, or both are present with moisture below 30
and pH inside [6, 8]; the moisture-normal baseline is always off because
each evaluation starts from a fresh false flag. -/
theorem caracterizacao_bomba (r : Reading) :
    (analisarDadosEControlarBomba r).bomba_ativa = true ↔
      (¬(r.fosforo_presente = true ∧ r.potassio_presente = true) ∨
       (r.fosforo_presente = true ∧ r.potassio_presente = true ∧
        r.umidade_solo < 30 ∧ 6 ≤ r.valor_ph ∧ r.valor_ph ≤ 8)) := by
  rcases r with ⟨f, k, ph, um⟩
  cases f <;> cases k <;>
    simp only [analisarDadosEControlarBomba] <;>
    norm_num [LIMITE_UMIDADE_BAIXA, LIMITE_UMIDADE_ALTA, LIMITE_PH_BAIXO, LIMITE_PH_ALTO]
  split_ifs with h1 h2 h3 h4
  · exact iff_of_false (by simp) (by rintro ⟨-, hp, -⟩; linarith)
  · exact iff_of_false (by simp) (by rintro ⟨-, -, hp⟩; linarith)
  · exact iff_of_true rfl ⟨h3, not_lt.mp h1, not_lt.mp h2⟩
  · exact iff_of_false (by simp) (by rintro ⟨hp, -, -⟩; exact h3 hp)
  · exact iff_of_false (by simp) (by rintro ⟨hp, -, -⟩; exact h3 hp)

/-- C8: the per-cycle record is the six comma-separated fields cycle index,
phosphorus as 0|1, potassium as 0|1, pH with 2 decimals, moisture with
1 decimal, pump as 0|1, in that order, and the pump field comes from the
decision computed for the same cycle's reading. -/
theorem linha_csv_seis_campos (c : Nat) (r : Reading) :
    (executarCiclo c r).1 = analisarDadosEControlarBomba r ∧
    (executarCiclo c r).2 = String.intercalate ","
      [Nat.repr c,
       if r.fosforo_presente then "1" else "0",
       if r.potassio_presente then "1" else "0",
       formatFixed r.valor_ph 2,
       formatFixed r.umidade_solo 1,
       if (analisarDadosEControlarBomba r).bomba_ativa then "1" else "0"] :=
  ⟨rfl, rfl⟩

/-! The record-line example of the serial output for scenario 1:
cycle 1, no nutrients, pH 7.2, moisture 45.0, pump on. -/

example : (executarCiclo 1 ⟨false, false, 72/10, 45⟩).2 = "1,0,0,7.20,45.0,1" := by
  have hf2 : formatFixed (72/10) 2 = "7.20" := by
    have h2 : (⌊|(72:ℚ)/10| * (10 : ℚ) ^ (2:Nat) + 1 / 2⌋) = 720 := by
      rw [abs_of_nonneg (by norm_num : (0:ℚ) ≤ 72/10)]
      norm_num
    have hn2 : ¬((72:ℚ)/10 < 0) := by norm_num
    simp only [formatFixed, h2, if_neg hn2]
    decide
  have hf1 : formatFixed 45 1 = "45.0" := by
    have h1 : (⌊|(45:ℚ)| * (10 : ℚ) ^ (1:Nat) + 1 / 2⌋) = 450 := by
      rw [abs_of_nonneg (by norm_num : (0:ℚ) ≤ 45)]
      norm_num
    have hn1 : ¬((45:ℚ) < 0) := by norm_num
    simp only [formatFixed, h1, if_neg hn1]
    decide
  have hd : analisarDadosEControlarBomba ⟨false, false, 72/10, 45⟩ =
      ⟨true, Motivo.semNutrientes⟩ := by
    norm_num [analisarDadosEControlarBomba, LIMITE_UMIDADE_BAIXA, LIMITE_UMIDADE_ALTA,
      LIMITE_PH_BAIXO, LIMITE_PH_ALTO]
  show exibirDadosCSV 1 ⟨false, false, 72/10, 45⟩
    (analisarDadosEControlarBomba ⟨false, false, 72/10, 45⟩).bomba_ativa = _
  rw [hd]
  simp only [exibirDadosCSV, hf2, hf1]
  decide
